import Mathlib

/-!
Shallow embedding of the AC session-state, controller and timer core of
src/telegram_bot_cloud.py, together with theorems settling the claims
about it.  Time is modelled as a Nat counted in minutes; the gateway
(the Switcher device API) is modelled as an oracle parameter giving the
outcome of the one call an operation performs.
-/

namespace AcBot

/-- Thermostat mode enum of the device library (only the three members
used by mode_mapping in the source are modelled). -/
inductive ThermostatMode where
  | COOL
  | HEAT
  | FAN
deriving DecidableEq, Repr

/-- Device power enum of the device library. -/
inductive DeviceState where
  | ON
  | OFF
deriving DecidableEq, Repr

/-- Fan level enum; the source only ever passes MEDIUM. -/
inductive ThermostatFanLevel where
  | MEDIUM
deriving DecidableEq, Repr

/-- Swing enum; the source only ever passes OFF. -/
inductive ThermostatSwing where
  | OFF
deriving DecidableEq, Repr

/-- Outcome of the single gateway call an operation attempts:
either the call succeeds or it raises, carrying the exception text. -/
inductive GatewayResult where
  | ok
  | error (reason : String)
deriving DecidableEq, Repr

/-- One call to api.control_breeze_device, recording the exact
arguments the source passes. -/
structure GatewayCall where
  device_state : DeviceState
  mode : ThermostatMode
  temperature : Int
  fan_level : ThermostatFanLevel
  swing : ThermostatSwing
deriving DecidableEq, Repr

/-- The global ac_state dict.  timer_task is modelled as the id of the
live asyncio task (None when no timer), timer_end as the deadline in
minutes. -/
structure AcState where
  is_on : Bool
  mode : String
  temperature : Int
  last_updated : Option Nat
  timer_task : Option Nat
  timer_end : Option Nat
deriving DecidableEq, Repr

/-- The initial value of ac_state at module load. -/
def initAcState : AcState :=
  { is_on := false
    mode := "COOL"
    temperature := 24
    last_updated := none
    timer_task := none
    timer_end := none }

/-- mode_mapping.get(mode, ThermostatMode.COOL): map the mode string to
the device enum, defaulting to COOL. -/
def mode_mapping (m : String) : ThermostatMode :=
  if m = "COOL" then ThermostatMode.COOL
  else if m = "HEAT" then ThermostatMode.HEAT
  else if m = "FAN" then ThermostatMode.FAN
  else ThermostatMode.COOL

/-- DeviceState.ON if power_state else DeviceState.OFF. -/
def devState (power_state : Bool) : DeviceState :=
  if power_state then DeviceState.ON else DeviceState.OFF

/-- Result of ACController.control_ac: the ac_state afterwards, the
returned Bool, the gateway calls attempted, and the logger.error lines
emitted. -/
structure ControlResult where
  state : AcState
  success : Bool
  calls : List GatewayCall
  error_logs : List String
deriving DecidableEq, Repr

/-- ACController.control_ac(power_state, mode, temperature).  The body
attempts exactly one control_breeze_device call; on success it updates
is_on, mode, temperature and last_updated and returns True; the
except-branch returns False after logging, leaving ac_state untouched.
There is no temperature validation anywhere in the body. -/
def control_ac (gw : GatewayResult) (now : Nat) (st : AcState)
    (power_state : Bool) (mode : String) (temperature : Int) : ControlResult :=
  let call : GatewayCall :=
    { device_state := devState power_state
      mode := mode_mapping mode
      temperature := temperature
      fan_level := ThermostatFanLevel.MEDIUM
      swing := ThermostatSwing.OFF }
  match gw with
  | GatewayResult.ok =>
      { state :=
          { st with
            is_on := power_state
            mode := mode
            temperature := temperature
            last_updated := some now }
        success := true
        calls := [call]
        error_logs := [] }
  | GatewayResult.error e =>
      { state := st
        success := false
        calls := [call]
        error_logs := ["Error controlling AC: " ++ e] }

/-- Snapshot returned by api.get_breeze_state: the fields the source
reads from it. -/
structure BreezeState where
  state_name : String
  mode_name : String
  target_temperature : Int
deriving DecidableEq, Repr

/-- Result of ACController.get_status: the ac_state afterwards, the
returned value (the snapshot on success, None on failure) and the
logger.error lines emitted. -/
structure StatusResult where
  state : AcState
  snapshot : Option BreezeState
  error_logs : List String
deriving DecidableEq, Repr

/-- ACController.get_status().  On a successful poll it overwrites
is_on (state.state.name == "ON"), mode and temperature from the
snapshot, sets last_updated and returns the snapshot; the
except-branch logs and returns None, leaving ac_state untouched. -/
def get_status (gw : Except String BreezeState) (now : Nat) (st : AcState) :
    StatusResult :=
  match gw with
  | Except.ok s =>
      { state :=
          { st with
            is_on := s.state_name = "ON"
            mode := s.mode_name
            temperature := s.target_temperature
            last_updated := some now }
        snapshot := some s
        error_logs := [] }
  | Except.error e =>
      { state := st
        snapshot := none
        error_logs := ["Error getting AC status: " ++ e] }

/-- Caller-visible reports, one constructor per message the handlers
send.  Each constructor stands for the literal text of one branch of
the source (the status block appended to most messages carries no
claim-relevant data and is elided):
timerExpiredOff m  = "Timer expired! AC turned OFF after m minutes.";
timerExpiredFailed = "Timer expired but failed to turn OFF AC. Please check manually.";
timerSet m = "Timer set for m minutes!"; timerCancelled = "Timer cancelled!";
noTimerToCancel = "No active timer to cancel";
toggledOk on / toggleFailed on = the turned ON/OFF success and failure texts;
tempSet t / tempFailed = the temperature success and failure texts;
manualSet on = "Bot state set to ON/OFF manually". -/
inductive Outcome where
  | timerExpiredOff (minutes : Nat)
  | timerExpiredFailed
  | timerSet (minutes : Nat)
  | timerCancelled
  | noTimerToCancel
  | toggledOk (power : Bool)
  | toggleFailed (power : Bool)
  | tempSet (t : Int)
  | tempFailed
  | manualSet (power : Bool)
deriving DecidableEq, Repr

/-- One asyncio task created by set_ac_timer: its identity and the
minutes its callback sleeps before turning the AC off. -/
structure Task where
  id : Nat
  minutes : Nat
deriving DecidableEq, Repr

/-- The whole observable system: the ac_state dict, a counter issuing
fresh task ids, the set of task ids on which .cancel() was called, the
tasks created so far, the messages sent to the chat, and the gateway
calls issued. -/
structure Sys where
  st : AcState
  nextId : Nat
  cancelled : List Nat
  tasks : List Task
  msgs : List Outcome
  gwCalls : List GatewayCall
deriving DecidableEq, Repr

/-- The system at process start. -/
def initSys : Sys :=
  { st := initAcState
    nextId := 0
    cancelled := []
    tasks := []
    msgs := []
    gwCalls := [] }

/-- set_ac_timer(chat_id, minutes, context): cancel the existing
timer_task if any, set timer_end = now + minutes, and create a fresh
task whose callback sleeps minutes and then turns the AC off. -/
def set_ac_timer (now minutes : Nat) (s : Sys) : Sys :=
  let cancelled1 :=
    match s.st.timer_task with
    | some id => id :: s.cancelled
    | none => s.cancelled
  { s with
    st := { s.st with
            timer_end := some (now + minutes)
            timer_task := some s.nextId }
    cancelled := cancelled1
    tasks := s.tasks ++ [{ id := s.nextId, minutes := minutes }]
    nextId := s.nextId + 1 }

/-- The timer_callback body of a created task, run at the moment its
sleep ends.  A task cancelled while it sleeps never runs its body
(asyncio cancellation raises inside the sleep), so firing a cancelled
task changes nothing.  Otherwise the callback calls
ac.control_ac(False, "COOL", 24); on success it reports the timer
expiry and clears timer_task and timer_end; on failure it reports the
distinguished failure text and clears nothing. -/
def timer_fire (gw : GatewayResult) (now : Nat) (task : Task) (s : Sys) : Sys :=
  if task.id ∈ s.cancelled then s
  else
    let r := control_ac gw now s.st false "COOL" 24
    if r.success then
      { s with
        st := { r.state with timer_task := none, timer_end := none }
        gwCalls := s.gwCalls ++ r.calls
        msgs := s.msgs ++ [Outcome.timerExpiredOff task.minutes] }
    else
      { s with
        st := r.state
        gwCalls := s.gwCalls ++ r.calls
        msgs := s.msgs ++ [Outcome.timerExpiredFailed] }

/-- The toggle_power branch of handle_callback_query: if ac_state is on,
call control_ac(False, "COOL", ac_state["temperature"]), else
control_ac(True, "COOL", ac_state["temperature"]); report success or
failure of the direction taken. -/
def toggle_power (gw : GatewayResult) (now : Nat) (s : Sys) : Sys :=
  if s.st.is_on then
    let r := control_ac gw now s.st false "COOL" s.st.temperature
    { s with
      st := r.state
      gwCalls := s.gwCalls ++ r.calls
      msgs := s.msgs ++
        [if r.success then Outcome.toggledOk false else Outcome.toggleFailed false] }
  else
    let r := control_ac gw now s.st true "COOL" s.st.temperature
    { s with
      st := r.state
      gwCalls := s.gwCalls ++ r.calls
      msgs := s.msgs ++
        [if r.success then Outcome.toggledOk true else Outcome.toggleFailed true] }

/-- The temp_ branch of handle_callback_query: parse the integer after
the underscore and call control_ac(True, "COOL", temp); report success or
failure. -/
def temp_button (gw : GatewayResult) (now : Nat) (temp : Int) (s : Sys) : Sys :=
  let r := control_ac gw now s.st true "COOL" temp
  { s with
    st := r.state
    gwCalls := s.gwCalls ++ r.calls
    msgs := s.msgs ++
      [if r.success then Outcome.tempSet temp else Outcome.tempFailed] }

/-- The manual_state_on and manual_state_off branches: set is_on to the
chosen value and last_updated to now, in bot memory only. -/
def manual_state (power : Bool) (now : Nat) (s : Sys) : Sys :=
  { s with
    st := { s.st with is_on := power, last_updated := some now }
    msgs := s.msgs ++ [Outcome.manualSet power] }

/-- The cancel_timer branch: if a timer_task exists, cancel it and clear
timer_task and timer_end, reporting the cancellation; otherwise report
that there is no active timer to cancel. -/
def cancel_timer (s : Sys) : Sys :=
  match s.st.timer_task with
  | some id =>
      { s with
        cancelled := id :: s.cancelled
        st := { s.st with timer_task := none, timer_end := none }
        msgs := s.msgs ++ [Outcome.timerCancelled] }
  | none => { s with msgs := s.msgs ++ [Outcome.noTimerToCancel] }

/-- One inline keyboard button: its label and its callback_data. -/
structure InlineKeyboardButton where
  text : String
  callback_data : String
deriving DecidableEq, Repr

/-- temps = list(range(16, 31)), the 16-30 degree values offered. -/
def temps : List Nat := List.range' 16 15

/-- The rows-of-3 slicing performed by the for-loop over
range(0, len(temps), 3) with temps[i:i+3]. -/
def rows_of_three : List Nat → List (List Nat)
  | a :: b :: c :: rest => [a, b, c] :: rows_of_three rest
  | [] => []
  | xs => [xs]

/-- get_temperature_menu(): the temperature buttons in rows of three,
each labelled with its degree value and carrying callback_data
"temp_" followed by the value, plus a final Back row. -/
def get_temperature_menu : List (List InlineKeyboardButton) :=
  (rows_of_three temps).map (fun row =>
    row.map (fun temp =>
      { text := toString temp ++ "°C"
        callback_data := "temp_" ++ toString temp })) ++
  [[{ text := "⬅️ Back", callback_data := "back_to_main" }]]

/-- Whether the first character list starts with the second; models
str.startswith, written structurally so it evaluates in proofs. -/
def strStarts : List Char → List Char → Bool
  | _, [] => true
  | [], _ :: _ => false
  | a :: as, b :: bs => a = b && strStarts as bs

/-- Split a character list at every underscore; models
str.split("_"). -/
def splitUnderscore : List Char → List (List Char)
  | [] => [[]]
  | c :: rest =>
      let r := splitUnderscore rest
      if c = '_' then [] :: r
      else
        match r with
        | [] => [[c]]
        | h :: t => (c :: h) :: t

/-- Value of a decimal digit character, none for anything else. -/
def digitVal (c : Char) : Option Nat :=
  if '0' ≤ c ∧ c ≤ '9' then some (c.toNat - 48) else none

/-- Read a nonempty all-digit character list as a Nat. -/
def natOfChars : List Char → Option Nat
  | [] => none
  | cs =>
      cs.foldl
        (fun acc c =>
          match acc, digitVal c with
          | some n, some d => some (n * 10 + d)
          | _, _ => none)
        (some 0)

/-- Read a character list as an integer, an optional leading minus sign
followed by digits; models int() on the strings this bot sees. -/
def intOfChars : List Char → Option Int
  | '-' :: rest => (natOfChars rest).map (fun n => -(n : Int))
  | cs => (natOfChars cs).map (fun n => (n : Int))

/-- The flattened list of buttons of the temperature menu whose
callback_data routes to the temp_ branch of handle_callback_query. -/
def menuTempButtons : List InlineKeyboardButton :=
  (get_temperature_menu.foldr (fun r acc => r ++ acc) []).filter
    (fun b => strStarts b.callback_data.toList "temp_".toList)

/-- The integer the temp_ branch extracts from a callback_data string:
int(data.split("_")[1]). -/
def parse_temp (data : String) : Option Int :=
  match (splitUnderscore data.toList).get? 1 with
  | some s => intOfChars s
  | none => none

/-- Claim C1, counterexample: at temperature 31, which exceeds 30,
control_ac is not rejected: it returns True on gateway success, a
gateway call is attempted, and ac_state.temperature becomes 31 — so no
ValidationError rejection exists. -/
theorem C1_counterexample :
    (control_ac GatewayResult.ok 0 initAcState true "COOL" 31).success = true ∧
    (control_ac GatewayResult.ok 0 initAcState true "COOL" 31).calls ≠ [] ∧
    (control_ac GatewayResult.ok 0 initAcState true "COOL" 31).state.temperature = 31 ∧
    (30 : Int) < 31 := by decide

/-- Claim C1, amended: control_ac performs no temperature validation at
all.  For every temperature, in or out of [16,30], exactly one gateway
call is attempted with exactly the supplied arguments; the call
succeeds or fails solely with the gateway, ac_state is updated with
the supplied temperature on success and left unchanged on failure. -/
theorem C1_no_validation (gw : GatewayResult) (now : Nat) (st : AcState)
    (p : Bool) (m : String) (t : Int) (e : String) :
    (control_ac gw now st p m t).calls
      = [⟨devState p, mode_mapping m, t,
           ThermostatFanLevel.MEDIUM, ThermostatSwing.OFF⟩] ∧
    (control_ac GatewayResult.ok now st p m t).success = true ∧
    (control_ac GatewayResult.ok now st p m t).state.temperature = t ∧
    (control_ac (GatewayResult.error e) now st p m t).success = false ∧
    (control_ac (GatewayResult.error e) now st p m t).state = st := by
  refine ⟨?_, rfl, rfl, rfl, rfl⟩
  cases gw <;> rfl

/-- Claim C2, counterexample: with the session in mode HEAT, the
toggle_power branch issues a gateway call whose mode is COOL, not the
mode HEAT of the session, and on success the session mode becomes
COOL. -/
theorem C2_counterexample :
    (toggle_power GatewayResult.ok 7
        { initSys with st := { initAcState with is_on := true, mode := "HEAT", temperature := 20 } }).gwCalls
      = [⟨DeviceState.OFF, ThermostatMode.COOL, 20,
           ThermostatFanLevel.MEDIUM, ThermostatSwing.OFF⟩] ∧
    mode_mapping "HEAT" = ThermostatMode.HEAT ∧
    ThermostatMode.COOL ≠ ThermostatMode.HEAT ∧
    (toggle_power GatewayResult.ok 7
        { initSys with st := { initAcState with is_on := true, mode := "HEAT", temperature := 20 } }).st.mode
      = "COOL" := by decide

/-- Claim C2, amended: toggle_power reads the current is_on flag,
computes its inverse, and issues one gateway call with that inverse
power, the hardcoded mode COOL (not the session mode), and the session
current temperature; after a successful call, is_on equals the
requested power and the mode is COOL. -/
theorem C2_toggle_power (now : Nat) (s : Sys) :
    (toggle_power GatewayResult.ok now s).gwCalls
      = s.gwCalls ++ [⟨devState (!s.st.is_on), ThermostatMode.COOL,
          s.st.temperature, ThermostatFanLevel.MEDIUM, ThermostatSwing.OFF⟩] ∧
    (toggle_power GatewayResult.ok now s).st.is_on = !s.st.is_on ∧
    (toggle_power GatewayResult.ok now s).st.temperature = s.st.temperature ∧
    (toggle_power GatewayResult.ok now s).st.mode = "COOL" := by
  cases h : s.st.is_on <;>
    simp [toggle_power, control_ac, devState, mode_mapping, h]

/-- Claim C3, counterexample: a timer scheduled at minute 100 for 5
minutes whose shut-off gateway call fails reports the distinguished
failure message, but timer_task and timer_end are NOT cleared to
null. -/
theorem C3_counterexample :
    (timer_fire (GatewayResult.error "network down") 105 { id := 0, minutes := 5 }
        (set_ac_timer 100 5 initSys)).st.timer_task ≠ none ∧
    (timer_fire (GatewayResult.error "network down") 105 { id := 0, minutes := 5 }
        (set_ac_timer 100 5 initSys)).st.timer_end = some 105 ∧
    (timer_fire (GatewayResult.error "network down") 105 { id := 0, minutes := 5 }
        (set_ac_timer 100 5 initSys)).msgs = [Outcome.timerExpiredFailed] := by decide

/-- Claim C3, amended: when an uncancelled timer fires and its
setPower(false, ...) gateway call fails, the caller-visible outcome is
the distinguished fired-but-gateway-failed report, never a silent
failure, but the timer does not return to Idle: ac_state is left
exactly as it was, timer_task and timer_end included. -/
theorem C3_fire_failure (s : Sys) (task : Task) (e : String) (now : Nat)
    (h : task.id ∉ s.cancelled) :
    (timer_fire (GatewayResult.error e) now task s).msgs
      = s.msgs ++ [Outcome.timerExpiredFailed] ∧
    (timer_fire (GatewayResult.error e) now task s).st = s.st ∧
    (timer_fire (GatewayResult.error e) now task s).st.timer_task = s.st.timer_task ∧
    (timer_fire (GatewayResult.error e) now task s).st.timer_end = s.st.timer_end := by
  simp [timer_fire, control_ac, h]

/-- Witness for C3_fire_failure at the initial system, task 0 and the
error text e. -/
theorem C3_fire_failure_witness :
    ((0 : Nat) ∉ initSys.cancelled) ∧
    ((timer_fire (GatewayResult.error "e") 9 { id := 0, minutes := 5 } initSys).msgs
        = initSys.msgs ++ [Outcome.timerExpiredFailed] ∧
      (timer_fire (GatewayResult.error "e") 9 { id := 0, minutes := 5 } initSys).st
        = initSys.st ∧
      (timer_fire (GatewayResult.error "e") 9 { id := 0, minutes := 5 } initSys).st.timer_task
        = initSys.st.timer_task ∧
      (timer_fire (GatewayResult.error "e") 9 { id := 0, minutes := 5 } initSys).st.timer_end
        = initSys.st.timer_end) :=
  ⟨by decide, C3_fire_failure initSys { id := 0, minutes := 5 } "e" 9 (by decide)⟩

/-- Claim C4, counterexample: in the scenario of the claim the
successful setPower(true, COOL, 26) yields the snapshot with
temperature 26, but after the 5-minute timer fires successfully the
final temperature is 24, not 26: the timer callback hardcodes
control_ac(False, "COOL", 24). -/
theorem C4_counterexample :
    (control_ac GatewayResult.ok 10 initAcState true "COOL" 26).state.is_on = true ∧
    (control_ac GatewayResult.ok 10 initAcState true "COOL" 26).state.mode = "COOL" ∧
    (control_ac GatewayResult.ok 10 initAcState true "COOL" 26).state.temperature = 26 ∧
    (timer_fire GatewayResult.ok 15 { id := 0, minutes := 5 }
        (set_ac_timer 10 5
          { initSys with st := (control_ac GatewayResult.ok 10 initAcState true "COOL" 26).state })).st.temperature
      = 24 ∧
    ¬ (timer_fire GatewayResult.ok 15 { id := 0, minutes := 5 }
        (set_ac_timer 10 5
          { initSys with st := (control_ac GatewayResult.ok 10 initAcState true "COOL" 26).state })).st.temperature
      = 26 := by decide

/-- Claim C4, amended: from the default session state, a successful
setPower(true, COOL, 26) yields snapshot is_on true, mode COOL,
temperature 26; after scheduleShutoff(5) the deadline is schedule time
plus 5, and when the timer fires and its shut-off call succeeds the
final snapshot is is_on false, mode COOL, temperature 24 — the timer
callback hardcodes temperature 24 — with timer_task and timer_end back
to null. -/
theorem C4_scenario (t0 t1 : Nat) :
    (control_ac GatewayResult.ok t0 initAcState true "COOL" 26).state
      = { is_on := true, mode := "COOL", temperature := 26, last_updated := some t0,
          timer_task := none, timer_end := none } ∧
    (set_ac_timer t1 5
        { initSys with st := (control_ac GatewayResult.ok t0 initAcState true "COOL" 26).state }).st.timer_end
      = some (t1 + 5) ∧
    (timer_fire GatewayResult.ok (t1 + 5) { id := 0, minutes := 5 }
        (set_ac_timer t1 5
          { initSys with st := (control_ac GatewayResult.ok t0 initAcState true "COOL" 26).state })).st
      = { is_on := false, mode := "COOL", temperature := 24, last_updated := some (t1 + 5),
          timer_task := none, timer_end := none } := by
  refine ⟨rfl, rfl, ?_⟩
  simp [timer_fire, set_ac_timer, control_ac, initSys, initAcState]

/-- Claim C5, counterexample: two gateway failures with different
reasons produce identical returned values from control_ac (False) and
get_status (None): the returned failure result carries no error
reason; the reason only reaches the log. -/
theorem C5_counterexample :
    (control_ac (GatewayResult.error "connection timeout") 0 initAcState true "COOL" 24).success
      = (control_ac (GatewayResult.error "bad key") 0 initAcState true "COOL" 24).success ∧
    (control_ac (GatewayResult.error "connection timeout") 0 initAcState true "COOL" 24).state
      = (control_ac (GatewayResult.error "bad key") 0 initAcState true "COOL" 24).state ∧
    (get_status (Except.error "connection timeout") 0 initAcState).snapshot
      = (get_status (Except.error "bad key") 0 initAcState).snapshot ∧
    "connection timeout" ≠ "bad key" := by decide

/-- Claim C5, amended: for every pre-call state, a gateway failure
inside control_ac or get_status leaves ac_state exactly identical to
its pre-call value with no partial update, makes exactly one attempt,
and returns a bare failure result (False, respectively None) rather
than raising; the error reason appears only in the log line. -/
theorem C5_failure_no_partial_update (now : Nat) (st : AcState) (p : Bool)
    (m : String) (t : Int) (e : String) :
    (control_ac (GatewayResult.error e) now st p m t).state = st ∧
    (control_ac (GatewayResult.error e) now st p m t).success = false ∧
    (control_ac (GatewayResult.error e) now st p m t).calls.length = 1 ∧
    (control_ac (GatewayResult.error e) now st p m t).error_logs
      = ["Error controlling AC: " ++ e] ∧
    (get_status (Except.error e) now st).state = st ∧
    (get_status (Except.error e) now st).snapshot = none ∧
    (get_status (Except.error e) now st).error_logs
      = ["Error getting AC status: " ++ e] :=
  ⟨rfl, rfl, rfl, rfl, rfl, rfl, rfl⟩

/-- Claim C6: scheduling a timer for m1 minutes and then, before it
fires, scheduling one for m2 minutes leaves exactly one active timer:
timer_task holds only the new task, timer_end is the second schedule
time plus m2, the m1 task is cancelled, and firing the m1 task changes
nothing at all — its shut-off action never runs.  Proved for all
durations, positive ones included. -/
theorem C6_reschedule (m1 m2 t1 t2 now : Nat) (gw : GatewayResult) (s : Sys) :
    (set_ac_timer t2 m2 (set_ac_timer t1 m1 s)).st.timer_end = some (t2 + m2) ∧
    (set_ac_timer t2 m2 (set_ac_timer t1 m1 s)).st.timer_task = some (s.nextId + 1) ∧
    (set_ac_timer t1 m1 s).st.timer_task = some s.nextId ∧
    s.nextId ∈ (set_ac_timer t2 m2 (set_ac_timer t1 m1 s)).cancelled ∧
    timer_fire gw now { id := s.nextId, minutes := m1 }
        (set_ac_timer t2 m2 (set_ac_timer t1 m1 s))
      = set_ac_timer t2 m2 (set_ac_timer t1 m1 s) := by
  refine ⟨rfl, rfl, rfl, ?_, ?_⟩
  · simp [set_ac_timer]
  · simp [timer_fire, set_ac_timer]

/-- Claim C7: cancelling after schedule(m) and before firing returns
the timer to Idle — timer_task and timer_end cleared to null — and the
scheduled task is cancelled so firing it changes nothing: its shut-off
action never runs.  Cancelling when no timer is active only appends
the nothing-to-cancel report and changes nothing else.  Proved for all
durations, positive ones included. -/
theorem C7_cancel (m t now : Nat) (s s0 : Sys) (gw : GatewayResult) :
    (cancel_timer (set_ac_timer t m s)).st.timer_task = none ∧
    (cancel_timer (set_ac_timer t m s)).st.timer_end = none ∧
    (cancel_timer (set_ac_timer t m s)).msgs = s.msgs ++ [Outcome.timerCancelled] ∧
    timer_fire gw now { id := s.nextId, minutes := m } (cancel_timer (set_ac_timer t m s))
      = cancel_timer (set_ac_timer t m s) ∧
    cancel_timer { s0 with st := { s0.st with timer_task := none } }
      = { s0 with st := { s0.st with timer_task := none }, msgs := s0.msgs ++ [Outcome.noTimerToCancel] } := by
  refine ⟨rfl, rfl, rfl, ?_, ?_⟩
  · simp [timer_fire, cancel_timer, set_ac_timer]
  · simp [cancel_timer]

/-- Claim C8, counterexample: a temp_ request carrying temperature 35,
outside [16,30], is not rejected: the gateway call is made, it is
reported as a success, and ac_state.temperature is set to 35. -/
theorem C8_counterexample :
    (temp_button GatewayResult.ok 0 35 initSys).st.temperature = 35 ∧
    ¬ ((35 : Int) ≤ 30) ∧
    (temp_button GatewayResult.ok 0 35 initSys).msgs = [Outcome.tempSet 35] := by decide

/-- Claim C8, amended: no operation rejects an out-of-range
temperature, but the range [16,30] is preserved by every mutating
operation whenever the temperatures actually supplied to it are in
range: control_ac and the temp_ path with an in-range request,
toggle_power (which reuses the session temperature), the timer fire
callback (which writes 24), get_status with an in-range device
snapshot, and the operations that never touch the temperature
(get_status failure, manual override, schedule, cancel). -/
theorem C8_range_preservation (s : Sys) (gw : GatewayResult) (now m : Nat)
    (t : Int) (task : Task) (snap : BreezeState) (e : String) (b : Bool)
    (p : Bool) (md : String)
    (hs : 16 ≤ s.st.temperature ∧ s.st.temperature ≤ 30)
    (ht : 16 ≤ t ∧ t ≤ 30)
    (hsnap : 16 ≤ snap.target_temperature ∧ snap.target_temperature ≤ 30) :
    (16 ≤ (control_ac gw now s.st p md t).state.temperature ∧
      (control_ac gw now s.st p md t).state.temperature ≤ 30) ∧
    (16 ≤ (temp_button gw now t s).st.temperature ∧
      (temp_button gw now t s).st.temperature ≤ 30) ∧
    (16 ≤ (toggle_power gw now s).st.temperature ∧
      (toggle_power gw now s).st.temperature ≤ 30) ∧
    (16 ≤ (timer_fire gw now task s).st.temperature ∧
      (timer_fire gw now task s).st.temperature ≤ 30) ∧
    (16 ≤ (get_status (Except.ok snap) now s.st).state.temperature ∧
      (get_status (Except.ok snap) now s.st).state.temperature ≤ 30) ∧
    (16 ≤ (get_status (Except.error e) now s.st).state.temperature ∧
      (get_status (Except.error e) now s.st).state.temperature ≤ 30) ∧
    (manual_state b now s).st.temperature = s.st.temperature ∧
    (set_ac_timer now m s).st.temperature = s.st.temperature ∧
    (cancel_timer s).st.temperature = s.st.temperature := by
  obtain ⟨hs1, hs2⟩ := hs
  obtain ⟨ht1, ht2⟩ := ht
  obtain ⟨hp1, hp2⟩ := hsnap
  refine ⟨?_, ?_, ?_, ?_, ?_, ?_, ?_, ?_, ?_⟩
  · cases gw <;> simp [control_ac] <;> omega
  · cases gw <;> simp [temp_button, control_ac] <;> omega
  · cases gw <;> cases h : s.st.is_on <;>
      simp [toggle_power, control_ac, h] <;> omega
  · by_cases hc : task.id ∈ s.cancelled
    · simp [timer_fire, hc]; omega
    · cases gw
      · simp [timer_fire, hc, control_ac]
      · simp [timer_fire, hc, control_ac]; omega
  · simp [get_status]; omega
  · simp [get_status]; omega
  · rfl
  · rfl
  · cases h : s.st.timer_task <;> simp [cancel_timer, h]

/-- Witness for C8_range_preservation at the initial system,
temperature 20, task 0 and an in-range device snapshot. -/
theorem C8_range_preservation_witness :
    (16 ≤ initSys.st.temperature ∧ initSys.st.temperature ≤ 30) ∧
    (16 ≤ (20 : Int) ∧ (20 : Int) ≤ 30) ∧
    (16 ≤ (⟨"ON", "HEAT", 20⟩ : BreezeState).target_temperature ∧
      (⟨"ON", "HEAT", 20⟩ : BreezeState).target_temperature ≤ 30) ∧
    ((16 ≤ (control_ac GatewayResult.ok 0 initSys.st true "HEAT" 20).state.temperature ∧
      (control_ac GatewayResult.ok 0 initSys.st true "HEAT" 20).state.temperature ≤ 30) ∧
    (16 ≤ (temp_button GatewayResult.ok 0 20 initSys).st.temperature ∧
      (temp_button GatewayResult.ok 0 20 initSys).st.temperature ≤ 30) ∧
    (16 ≤ (toggle_power GatewayResult.ok 0 initSys).st.temperature ∧
      (toggle_power GatewayResult.ok 0 initSys).st.temperature ≤ 30) ∧
    (16 ≤ (timer_fire GatewayResult.ok 0 { id := 0, minutes := 5 } initSys).st.temperature ∧
      (timer_fire GatewayResult.ok 0 { id := 0, minutes := 5 } initSys).st.temperature ≤ 30) ∧
    (16 ≤ (get_status (Except.ok (⟨"ON", "HEAT", 20⟩ : BreezeState)) 0 initSys.st).state.temperature ∧
      (get_status (Except.ok (⟨"ON", "HEAT", 20⟩ : BreezeState)) 0 initSys.st).state.temperature ≤ 30) ∧
    (16 ≤ (get_status (Except.error "x") 0 initSys.st).state.temperature ∧
      (get_status (Except.error "x") 0 initSys.st).state.temperature ≤ 30) ∧
    (manual_state true 0 initSys).st.temperature = initSys.st.temperature ∧
    (set_ac_timer 0 5 initSys).st.temperature = initSys.st.temperature ∧
    (cancel_timer initSys).st.temperature = initSys.st.temperature) :=
  ⟨by decide, by decide, by decide,
    C8_range_preservation initSys GatewayResult.ok 0 5 20 { id := 0, minutes := 5 }
      ⟨"ON", "HEAT", 20⟩ "x" true true "HEAT" (by decide) (by decide) (by decide)⟩

/-- Claim C9: the manual override branches set is_on to the chosen
value and last_updated to the current time, issue no gateway call (the
gateway call list is unchanged), leave every other field of ac_state
untouched and always report the manual-set message — they never
fail. -/
theorem C9_manual_state (b : Bool) (now : Nat) (s : Sys) :
    (manual_state b now s).st.is_on = b ∧
    (manual_state b now s).st.last_updated = some now ∧
    (manual_state b now s).gwCalls = s.gwCalls ∧
    (manual_state b now s).st.mode = s.st.mode ∧
    (manual_state b now s).st.temperature = s.st.temperature ∧
    (manual_state b now s).st.timer_task = s.st.timer_task ∧
    (manual_state b now s).st.timer_end = s.st.timer_end ∧
    (manual_state b now s).msgs = s.msgs ++ [Outcome.manualSet b] :=
  ⟨rfl, rfl, rfl, rfl, rfl, rfl, rfl, rfl⟩

/-- Claim C10: the temperature menu offers exactly the temperatures 16
through 30, one temp_ button per value; every value the temp_ branch
parses from those buttons lies in [16,30]; and control_ac itself
attempts its gateway call for any temperature whatsoever (here 99), so
the menu is the only range enforcement. -/
theorem C10_temperature_menu :
    menuTempButtons.map (fun b => b.callback_data)
      = ["temp_16", "temp_17", "temp_18", "temp_19", "temp_20", "temp_21", "temp_22",
         "temp_23", "temp_24", "temp_25", "temp_26", "temp_27", "temp_28", "temp_29",
         "temp_30"] ∧
    menuTempButtons.map (fun b => parse_temp b.callback_data)
      = [some 16, some 17, some 18, some 19, some 20, some 21, some 22, some 23,
         some 24, some 25, some 26, some 27, some 28, some 29, some 30] ∧
    (menuTempButtons.map (fun b => parse_temp b.callback_data)).all
      (fun o => decide (∃ v ∈ o, 16 ≤ v ∧ v ≤ 30)) = true ∧
    (control_ac GatewayResult.ok 0 initAcState true "COOL" 99).calls.length = 1 := by
  refine ⟨by decide, by decide, by decide, rfl⟩

end AcBot
